import Mathlib

/-!
Verification of the storage transport-abstraction layer
(`storage/client.go`): the `settings` aggregate, the `storageOption`
variants and their `Apply` writes, option resolution (`resolveOptions`,
`initSettings`, `callSettings`), the transport operation contract, and
the rewrite state machine's request/response shapes.

Machine integers (`int64`) are modelled as `Int`; Go nil-able pointers
as `Option`; Go slices as `List`. Pointer mutation is modelled twice:
a value-level (pure) translation for functional claims, and an explicit
store of addressed `settings` cells for the claims about the defaults
instance not being mutated.
-/

/-- Modelled from the spec: `retryConfig` (defined elsewhere in the
repository) is an opaque retry-policy object referenced, not owned, by
`settings`; only its identity matters at this layer. -/
structure retryConfig where
  id : Nat
deriving DecidableEq

/-- Modelled from the spec: `gax.CallOption` (an external collaborator)
is an opaque low-level call option; only its identity matters here. -/
structure GaxCallOption where
  id : Nat
deriving DecidableEq

/-- Modelled from the spec: `option.ClientOption` (an external
collaborator) is an opaque transport-construction option; only its
identity matters here. -/
structure ClientOption where
  id : Nat
deriving DecidableEq

/-- `settings` from `storage/client.go`: transport-agnostic
configuration for API calls. `retry *retryConfig` becomes
`Option retryConfig`; the two slice fields become lists. -/
structure settings where
  retry : Option retryConfig
  gax : List GaxCallOption
  idempotent : Bool
  clientOption : List ClientOption
deriving DecidableEq

/-- The concrete `storageOption` implementations of `storage/client.go`
(`gaxOption`, `retryOption`, `idempotentOption`, `clientOption`) as a
closed variant type, each carrying its payload. -/
inductive storageOption where
  | gaxOption (opts : List GaxCallOption)
  | retryOption (rc : Option retryConfig)
  | idempotentOption (idempotency : Bool)
  | clientOption (opts : List ClientOption)
deriving DecidableEq

/-- The four `Apply` methods of `storage/client.go`, each a single
field assignment on the target settings:
`s.gax = o.opts`, `s.retry = o.rc`, `s.idempotent = o.idempotency`,
`s.clientOption = o.opts`. Go's in-place write through `*settings`
becomes value update. -/
def storageOption.Apply (o : storageOption) (s : settings) : settings :=
  match o with
  | .gaxOption opts => { s with gax := opts }
  | .retryOption rc => { s with retry := rc }
  | .idempotentOption i => { s with idempotent := i }
  | .clientOption opts => { s with clientOption := opts }

/-- `withGAXOptions` from `storage/client.go`. -/
def withGAXOptions (opts : List GaxCallOption) : storageOption :=
  .gaxOption opts

/-- `withRetryConfig` from `storage/client.go` (`rc *retryConfig`). -/
def withRetryConfig (rc : Option retryConfig) : storageOption :=
  .retryOption rc

/-- `idempotent` from `storage/client.go`. -/
def idempotent (i : Bool) : storageOption :=
  .idempotentOption i

/-- `withClientOptions` from `storage/client.go`. -/
def withClientOptions (opts : List ClientOption) : storageOption :=
  .clientOption opts

/-- `resolveOptions` from `storage/client.go`: `for _, o := range opts
{ o.Apply(s) }` — a left fold of `Apply` over the option sequence,
with the mutated `*settings` made an explicit value. -/
def resolveOptions (s : settings) (opts : List storageOption) : settings :=
  opts.foldl (fun s o => o.Apply s) s

/-- The zero value `settings{}` taken by `initSettings`: nil retry
pointer, nil slices, false flag. -/
def zeroSettings : settings :=
  { retry := none, gax := [], idempotent := false, clientOption := [] }

/-- `initSettings` from `storage/client.go`: resolve the options
against a fresh zero-valued settings. -/
def initSettings (opts : List storageOption) : settings :=
  resolveOptions zeroSettings opts

/-- `callSettings` from `storage/client.go`, value level: a nil
defaults pointer yields nil; otherwise the defaults value is shallow
copied (`cs := *defaults`) and the options resolved against the copy. -/
def callSettings (defaults : Option settings) (opts : List storageOption) :
    Option settings :=
  match defaults with
  | none => none
  | some d => some (resolveOptions d opts)

/-! ## Store model of `callSettings`

Go's `callSettings` takes a pointer to the defaults, copies the
pointed-to struct into a fresh local and returns the address of that
local. To state that the defaults cell itself is untouched we model the
heap: a `store` maps addresses to `settings` cells, addresses at or
above `next` being unallocated. -/

/-- A store of addressed `settings` cells; `next` is the next fresh
address. -/
structure store where
  mem : Nat → Option settings
  next : Nat

/-- `callSettings` from `storage/client.go`, store level: on a nil
pointer return nil and leave the store alone; otherwise copy the
pointed-to settings, resolve the options against the copy in a freshly
allocated cell (`cs := *defaults; resolveOptions(&cs, opts...)`), and
return its address. (A dangling pointer, impossible for a live client,
is mapped to the nil outcome.) -/
def callSettingsS (st : store) (defaults : Option Nat)
    (opts : List storageOption) : store × Option Nat :=
  match defaults with
  | none => (st, none)
  | some d =>
    match st.mem d with
    | none => (st, none)
    | some D =>
      (⟨fun a => if a = st.next then some (resolveOptions D opts) else st.mem a,
        st.next + 1⟩, some st.next)

/-! ## Last-writer-wins characterisation (spec side)

Per-field reference functions written from the spec's words: each
field of the result holds the payload of the last option in the
sequence writing that field, or the base value when no option writes
it. -/

/-- Spec-side: the last `retryOption` payload in the sequence, or the
base retry value when none occurs. -/
def lastRetryWrite (base : Option retryConfig) :
    List storageOption → Option retryConfig
  | [] => base
  | .retryOption rc :: rest => lastRetryWrite rc rest
  | _ :: rest => lastRetryWrite base rest

/-- Spec-side: the last `gaxOption` payload in the sequence, or the
base gax list when none occurs. -/
def lastGaxWrite (base : List GaxCallOption) :
    List storageOption → List GaxCallOption
  | [] => base
  | .gaxOption g :: rest => lastGaxWrite g rest
  | _ :: rest => lastGaxWrite base rest

/-- Spec-side: the last `idempotentOption` payload in the sequence, or
the base flag when none occurs. -/
def lastIdempotentWrite (base : Bool) : List storageOption → Bool
  | [] => base
  | .idempotentOption i :: rest => lastIdempotentWrite i rest
  | _ :: rest => lastIdempotentWrite base rest

/-- Spec-side: the last `clientOption` payload in the sequence, or the
base client-option list when none occurs. -/
def lastClientOptionWrite (base : List ClientOption) :
    List storageOption → List ClientOption
  | [] => base
  | .clientOption c :: rest => lastClientOptionWrite c rest
  | _ :: rest => lastClientOptionWrite base rest

/-- Unfolding lemma: resolution consumes the options strictly in
sequence order, one `Apply` at a time. -/
theorem resolveOptions_cons (s : settings) (o : storageOption)
    (opts : List storageOption) :
    resolveOptions s (o :: opts) = resolveOptions (o.Apply s) opts := rfl

/-- C2: `resolveOptions` is last-writer-wins per field — each field of
the result holds the payload of the last option in the sequence that
writes it, fields written by no option keep their base value, and the
options are consumed strictly in sequence order with no skipping or
reordering. -/
theorem resolveOptions_lastWriterWins (s : settings)
    (opts : List storageOption) :
    resolveOptions s opts =
      { retry := lastRetryWrite s.retry opts,
        gax := lastGaxWrite s.gax opts,
        idempotent := lastIdempotentWrite s.idempotent opts,
        clientOption := lastClientOptionWrite s.clientOption opts } ∧
    ∀ (o : storageOption) (rest : List storageOption),
      resolveOptions s (o :: rest) = resolveOptions (o.Apply s) rest := by
  refine ⟨?_, fun o rest => rfl⟩
  induction opts generalizing s with
  | nil => rfl
  | cons o rest ih =>
    rw [resolveOptions_cons, ih]
    cases o <;> rfl

/-- C3: resolving call options against a nil defaults pointer yields
nil — no failure, no fabricated settings — and this outcome is distinct
from resolving against a present (e.g. zero-valued) defaults, which is
always a present result. -/
theorem callSettings_nil_defaults (opts : List storageOption)
    (s : settings) :
    callSettings none opts = none ∧
    (callSettings (some s) opts).isSome = true ∧
    callSettings (some zeroSettings) opts ≠ none := by
  refine ⟨rfl, rfl, ?_⟩
  intro h
  exact Option.noConfusion h

/-- C4: each concrete option variant's `Apply` replaces exactly its one
field with the option's payload and leaves every other field of the
input settings unchanged; the written value is the payload alone, never
read from the input. -/
theorem storageOption_apply_single_field (s : settings)
    (g : List GaxCallOption) (rc : Option retryConfig) (i : Bool)
    (c : List ClientOption) :
    (storageOption.gaxOption g).Apply s = { s with gax := g } ∧
    (storageOption.retryOption rc).Apply s = { s with retry := rc } ∧
    (storageOption.idempotentOption i).Apply s = { s with idempotent := i } ∧
    (storageOption.clientOption c).Apply s = { s with clientOption := c } :=
  ⟨rfl, rfl, rfl, rfl⟩

/-- C5: the empty option sequence is an identity — resolving no options
against `s` gives back `s`, both in `resolveOptions` and through
`callSettings`. -/
theorem resolveOptions_empty_id (s : settings) :
    resolveOptions s [] = s ∧ callSettings (some s) [] = some s :=
  ⟨rfl, rfl⟩

/-- C9: option resolution is total — for every settings and every
option sequence `resolveOptions` returns a settings value, and every
variant's `Apply` returns a settings value; no error outcome exists in
either type. -/
theorem resolveOptions_total (s : settings) (opts : List storageOption) :
    (∃ r : settings, resolveOptions s opts = r) ∧
    ∀ (o : storageOption) (t : settings), ∃ r : settings, o.Apply t = r :=
  ⟨⟨_, rfl⟩, fun _ _ => ⟨_, rfl⟩⟩

/-- C10: construction-time resolution and call-time resolution agree —
`initSettings opts` equals `callSettings` applied to a fresh zero-valued
settings with the same options; both are the same fold of `Apply`,
differing only in the starting settings. -/
theorem initSettings_eq_callSettings_zero (opts : List storageOption) :
    some (initSettings opts) = callSettings (some zeroSettings) opts := rfl

/-- C1: building call-scoped settings leaves the defaults cell
observably unchanged — in any well-formed store (no cell allocated at
or above `next`), after `callSettingsS` on the address of a non-nil
defaults `D`, that address still holds exactly `D`, every field equal
to its pre-call value. -/
theorem callSettings_preserves_defaults (st : store) (d : Nat)
    (D : settings) (opts : List storageOption)
    (hwf : ∀ a, st.next ≤ a → st.mem a = none)
    (hD : st.mem d = some D) :
    (callSettingsS st (some d) opts).1.mem d = some D := by
  have hd : d ≠ st.next := by
    intro h
    rw [h, hwf st.next (Nat.le_refl _)] at hD
    exact Option.noConfusion hD
  simp only [callSettingsS, hD]
  simp [hd]

def exampleDefaults : settings :=
  { retry := none, gax := [GaxCallOption.mk 7], idempotent := true,
    clientOption := [] }

def exampleStore : store :=
  { mem := fun a => if a = 0 then some exampleDefaults else none,
    next := 1 }

theorem exampleStore_wf :
    ∀ a, exampleStore.next ≤ a → exampleStore.mem a = none := by
  intro a ha
  have h1 : (1 : Nat) ≤ a := ha
  have h : a ≠ 0 := by omega
  simp [exampleStore, h]

/-- Witness for C1 at a concrete store, defaults and option sequence. -/
theorem callSettings_preserves_defaults_witness :
    (∀ a, exampleStore.next ≤ a → exampleStore.mem a = none) ∧
    exampleStore.mem 0 = some exampleDefaults ∧
    (callSettingsS exampleStore (some 0)
      [idempotent false, withRetryConfig (some (retryConfig.mk 3))]).1.mem 0 =
      some exampleDefaults :=
  ⟨exampleStore_wf, by simp [exampleStore],
    callSettings_preserves_defaults exampleStore 0 exampleDefaults
      [idempotent false, withRetryConfig (some (retryConfig.mk 3))]
      exampleStore_wf (by simp [exampleStore])⟩

def exampleStoreZ : store :=
  { mem := fun a => if a = 0 then some zeroSettings else none,
    next := 1 }

theorem exampleStoreZ_wf :
    ∀ a, exampleStoreZ.next ≤ a → exampleStoreZ.mem a = none := by
  intro a ha
  have h1 : (1 : Nat) ≤ a := ha
  have h : a ≠ 0 := by omega
  simp [exampleStoreZ, h]

/-- C6: for any retry configuration `R`, starting from defaults whose
idempotent flag is false, `callSettingsS` with options
`[withRetryConfig R, idempotent true]` returns the address of a
call-scoped settings with `idempotent = true` and `retry = R`, while
the defaults cell still holds `D` with its idempotent flag false. -/
theorem callSettings_retry_idempotent_scenario (st : store) (d : Nat)
    (D : settings) (R : Option retryConfig)
    (hwf : ∀ a, st.next ≤ a → st.mem a = none)
    (hD : st.mem d = some D) (hI : D.idempotent = false) :
    ∃ a cs,
      (callSettingsS st (some d) [withRetryConfig R, idempotent true]).2 =
        some a ∧
      (callSettingsS st (some d) [withRetryConfig R, idempotent true]).1.mem a =
        some cs ∧
      cs.idempotent = true ∧ cs.retry = R ∧
      (callSettingsS st (some d) [withRetryConfig R, idempotent true]).1.mem d =
        some D ∧
      D.idempotent = false := by
  have hd : d ≠ st.next := by
    intro h
    rw [h, hwf st.next (Nat.le_refl _)] at hD
    exact Option.noConfusion hD
  refine ⟨st.next, { D with retry := R, idempotent := true }, ?_, ?_, rfl, rfl,
    ?_, hI⟩
  · simp only [callSettingsS, hD]
  · simp only [callSettingsS, hD]
    simp [resolveOptions, storageOption.Apply, withRetryConfig, idempotent]
  · simp only [callSettingsS, hD]
    simp [hd]

/-- Witness for C6 at a concrete store, defaults and retry config. -/
theorem callSettings_retry_idempotent_scenario_witness :
    (∀ a, exampleStoreZ.next ≤ a → exampleStoreZ.mem a = none) ∧
    exampleStoreZ.mem 0 = some zeroSettings ∧
    zeroSettings.idempotent = false ∧
    ∃ a cs,
      (callSettingsS exampleStoreZ (some 0)
        [withRetryConfig (some (retryConfig.mk 5)), idempotent true]).2 =
        some a ∧
      (callSettingsS exampleStoreZ (some 0)
        [withRetryConfig (some (retryConfig.mk 5)), idempotent true]).1.mem a =
        some cs ∧
      cs.idempotent = true ∧ cs.retry = some (retryConfig.mk 5) ∧
      (callSettingsS exampleStoreZ (some 0)
        [withRetryConfig (some (retryConfig.mk 5)), idempotent true]).1.mem 0 =
        some zeroSettings ∧
      zeroSettings.idempotent = false :=
  ⟨exampleStoreZ_wf, by simp [exampleStoreZ], rfl,
    callSettings_retry_idempotent_scenario exampleStoreZ 0 zeroSettings
      (some (retryConfig.mk 5)) exampleStoreZ_wf (by simp [exampleStoreZ]) rfl⟩

/-! ## Transport operation contract -/

/-- The operations of the `storageClient` interface in
`storage/client.go`, one per method. -/
inductive storageOp where
  | getServiceAccount | createBucket | listBuckets
  | deleteBucket | getBucket | updateBucket
  | lockBucketRetentionPolicy | listObjects
  | deleteObject | getObject | updateObject
  | deleteDefaultObjectACL | listDefaultObjectACLs | updateDefaultObjectACL
  | deleteBucketACL | listBucketACLs | updateBucketACL
  | deleteObjectACL | listObjectACLs | updateObjectACL
  | composeObject | rewriteObject | openReader | openWriter
  | getIamPolicy | setIamPolicy | testIamPermissions
  | getHMACKey | listHMACKey | updateHMACKey | createHMACKey
  | deleteHMACKey
deriving DecidableEq

/-- Modelled from the spec: the error taxonomy of the layer.
`StorageUnimplementedErr` (declared elsewhere in the repository; the
interface doc in `storage/client.go` requires unimplemented methods to
return it) is a named kind distinct from the wrapped remote API errors
(status code, message, details). -/
inductive storageError where
  | storageUnimplementedErr
  | apiError (code : Nat) (msg : String)
deriving DecidableEq

/-- Modelled from the spec: a transport implementation of the
`storageClient` interface with a declared set of supported operations
and an implementation for the supported ones. No concrete transport
exists under `src/`, so the implementation bodies are abstract. -/
structure transport where
  supports : storageOp → Bool
  impl : storageOp → Except storageError Unit

/-- Modelled from the spec: invoking an operation on a transport — a
supported operation runs the transport's implementation; an
unsupported one returns `StorageUnimplementedErr` synchronously. The
function is total: every invocation returns a value, never a crash. -/
def invokeOp (t : transport) (op : storageOp) : Except storageError Unit :=
  if t.supports op then t.impl op else .error .storageUnimplementedErr

/-- C7: invoking any operation a transport does not support returns
exactly the named `StorageUnimplementedErr` kind — an error value
(never a crash: `invokeOp` is total) that is distinct from every
generic wrapped API error. -/
theorem unimplemented_transport_error (t : transport) (op : storageOp)
    (h : t.supports op = false) :
    invokeOp t op = .error .storageUnimplementedErr ∧
    ∀ (code : Nat) (msg : String),
      (storageError.storageUnimplementedErr ≠ storageError.apiError code msg) := by
  constructor
  · simp [invokeOp, h]
  · intro code msg hEq
    exact storageError.noConfusion hEq

def exampleTransport : transport :=
  { supports := fun op => match op with
      | .rewriteObject => false
      | _ => true,
    impl := fun _ => .ok () }

/-- Witness for C7 at a concrete transport lacking `RewriteObject`. -/
theorem unimplemented_transport_error_witness :
    exampleTransport.supports storageOp.rewriteObject = false ∧
    (invokeOp exampleTransport storageOp.rewriteObject =
      .error .storageUnimplementedErr ∧
     ∀ (code : Nat) (msg : String),
      (storageError.storageUnimplementedErr ≠ storageError.apiError code msg)) :=
  ⟨rfl, unimplemented_transport_error exampleTransport storageOp.rewriteObject rfl⟩

/-! ## Rewrite state machine -/

/-- Modelled from the spec: `ObjectAttrs` (defined elsewhere in the
repository) — opaque object attributes; only identity matters here. -/
structure ObjectAttrs where
  id : Nat
deriving DecidableEq

/-- Modelled from the spec: `Conditions` (defined elsewhere in the
repository) — opaque conditional-update preconditions. -/
structure Conditions where
  id : Nat
deriving DecidableEq

/-- `composeObjectRequest` from `storage/client.go`. -/
structure composeObjectRequest where
  dstBucket : String
  dstObject : String
  srcs : List String
  gen : Int
  conds : Option Conditions
  predefinedACL : String
deriving DecidableEq

/-- `rewriteObjectRequest` from `storage/client.go`; `gen int64`
becomes `Int`, pointers become `Option`. -/
structure rewriteObjectRequest where
  srcBucket : String
  srcObject : String
  dstBucket : String
  dstObject : String
  dstKeyName : String
  attrs : Option ObjectAttrs
  gen : Int
  conds : Option Conditions
  predefinedACL : String
  token : String
deriving DecidableEq

/-- `rewriteObjectResponse` from `storage/client.go`; `written int64`
becomes `Int`. -/
structure rewriteObjectResponse where
  resource : Option ObjectAttrs
  done : Bool
  written : Int
  token : String
deriving DecidableEq

/-- Modelled from the spec: the opaque continuation token encodes the
rewrite progress; we encode `w` bytes written as a string of length
`w`, so the fresh request's empty token encodes zero progress. -/
def encodeTok (w : Nat) : String :=
  String.mk (List.replicate w 'x')

/-- Modelled from the spec: recover the progress a continuation token
encodes. -/
def decodeTok (s : String) : Nat :=
  s.length

theorem decodeTok_encodeTok (w : Nat) : decodeTok (encodeTok w) = w :=
  List.length_replicate w _

/-- Modelled from the spec: one step of the rewrite state machine for
an object of `total` bytes copied in chunks of `chunk` bytes — the
transport advances the progress carried by the request's token by one
chunk (capped at `total`), reports the bytes written so far, sets
`done` and the final resource exactly on completion, and echoes the new
token. Exactly one step per invocation, no internal looping. -/
def rewriteStep (total chunk : Nat) (res : ObjectAttrs)
    (req : rewriteObjectRequest) : rewriteObjectResponse :=
  let w := min total (decodeTok req.token + chunk)
  { resource := if w = total then some res else none,
    done := decide (w = total),
    written := (w : Int),
    token := encodeTok w }

/-- Modelled from the spec: the caller-side trace — the first
invocation uses the caller's fresh request, every later invocation
re-sends the request with the token taken from the prior response. -/
def rewriteTrace (total chunk : Nat) (res : ObjectAttrs)
    (req0 : rewriteObjectRequest) : Nat → rewriteObjectResponse
  | 0 => rewriteStep total chunk res req0
  | n + 1 => rewriteStep total chunk res
      { req0 with token := (rewriteTrace total chunk res req0 n).token }

theorem rewriteTrace_progress (total chunk : Nat) (res : ObjectAttrs)
    (req0 : rewriteObjectRequest) (h0 : req0.token = "") (n : Nat) :
    decodeTok ((rewriteTrace total chunk res req0 n).token) =
      min total ((n + 1) * chunk) := by
  induction n with
  | zero =>
    show decodeTok (encodeTok (min total (decodeTok req0.token + chunk))) =
      min total ((0 + 1) * chunk)
    rw [decodeTok_encodeTok, h0]
    have hz : decodeTok "" = 0 := rfl
    rw [hz]
    omega
  | succ n ih =>
    show decodeTok (encodeTok _) = _
    rw [decodeTok_encodeTok, ih]
    rw [Nat.succ_mul (n + 1) chunk]
    generalize (n + 1) * chunk = a
    omega

theorem rewriteTrace_written (total chunk : Nat) (res : ObjectAttrs)
    (req0 : rewriteObjectRequest) (h0 : req0.token = "") (n : Nat) :
    (rewriteTrace total chunk res req0 n).written =
      ((min total ((n + 1) * chunk) : Nat) : Int) := by
  cases n with
  | zero =>
    show ((min total (decodeTok req0.token + chunk) : Nat) : Int) = _
    rw [h0]
    have hz : decodeTok "" = 0 := rfl
    rw [hz]
    congr 1
    omega
  | succ n =>
    show ((min total
      (decodeTok ((rewriteTrace total chunk res req0 n).token) + chunk) : Nat) :
        Int) = _
    rw [rewriteTrace_progress total chunk res req0 h0 n]
    congr 1
    rw [Nat.succ_mul (n + 1) chunk]
    generalize (n + 1) * chunk = a
    omega

theorem rewriteTrace_done_iff (total chunk : Nat) (res : ObjectAttrs)
    (req0 : rewriteObjectRequest) (n : Nat) :
    (rewriteTrace total chunk res req0 n).done =
      decide (decodeTok ((rewriteTrace total chunk res req0 n).token) = total) := by
  cases n with
  | zero =>
    show decide _ = decide (decodeTok (encodeTok _) = total)
    rw [decodeTok_encodeTok]
  | succ n =>
    show decide _ = decide (decodeTok (encodeTok _) = total)
    rw [decodeTok_encodeTok]

/-- C8: re-invoking the rewrite with the token of the prior response
eventually yields `done = true`; every successive response's
bytes-written is non-decreasing; and each invocation is exactly one
`rewriteStep` of the state machine on the prior token, with no looping
inside the interface. -/
theorem rewrite_eventually_done (total chunk : Nat) (res : ObjectAttrs)
    (req0 : rewriteObjectRequest) (hchunk : 1 ≤ chunk)
    (h0 : req0.token = "") :
    (∃ n, (rewriteTrace total chunk res req0 n).done = true) ∧
    (∀ n, (rewriteTrace total chunk res req0 n).written ≤
      (rewriteTrace total chunk res req0 (n + 1)).written) ∧
    (∀ n, rewriteTrace total chunk res req0 (n + 1) =
      rewriteStep total chunk res
        { req0 with token := (rewriteTrace total chunk res req0 n).token }) := by
  refine ⟨⟨total, ?_⟩, ?_, fun n => rfl⟩
  · rw [rewriteTrace_done_iff total chunk res req0 total,
      rewriteTrace_progress total chunk res req0 h0 total]
    have hm : total + 1 ≤ (total + 1) * chunk :=
      Nat.le_mul_of_pos_right (total + 1) hchunk
    generalize (total + 1) * chunk = a at hm ⊢
    simp only [decide_eq_true_eq]
    omega
  · intro n
    rw [rewriteTrace_written total chunk res req0 h0 n,
      rewriteTrace_written total chunk res req0 h0 (n + 1)]
    have hmul : (n + 1) * chunk ≤ (n + 1 + 1) * chunk :=
      Nat.mul_le_mul_right chunk (Nat.le_succ _)
    exact_mod_cast min_le_min (Nat.le_refl total) hmul

def exampleRewriteReq : rewriteObjectRequest :=
  { srcBucket := "bucket-a", srcObject := "obj-a", dstBucket := "bucket-b",
    dstObject := "obj-b", dstKeyName := "", attrs := none, gen := 0,
    conds := none, predefinedACL := "", token := "" }

/-- Witness for C8 at a concrete object size, chunk size and fresh
request. -/
theorem rewrite_eventually_done_witness :
    (1 : Nat) ≤ 2 ∧ exampleRewriteReq.token = "" ∧
    ((∃ n, (rewriteTrace 3 2 (ObjectAttrs.mk 0) exampleRewriteReq n).done =
        true) ∧
     (∀ n, (rewriteTrace 3 2 (ObjectAttrs.mk 0) exampleRewriteReq n).written ≤
       (rewriteTrace 3 2 (ObjectAttrs.mk 0) exampleRewriteReq (n + 1)).written) ∧
     (∀ n, rewriteTrace 3 2 (ObjectAttrs.mk 0) exampleRewriteReq (n + 1) =
       rewriteStep 3 2 (ObjectAttrs.mk 0)
         { exampleRewriteReq with
           token := (rewriteTrace 3 2 (ObjectAttrs.mk 0) exampleRewriteReq
             n).token })) :=
  ⟨by decide, rfl,
    rewrite_eventually_done 3 2 (ObjectAttrs.mk 0) exampleRewriteReq
      (by decide) rfl⟩
